import Mathlib

/-!
Verification development for the Atrix DEX UI market utilities
(`src/utils/markets.tsx` and `src/routes.tsx`).

The definitions below are a shallow embedding of the TypeScript source.
JavaScript numbers are modelled as exact rationals, with `NaN` represented
explicitly (the code under study produces `NaN` on some paths); JavaScript
truthiness is modelled where the source relies on it.  Library functions
that are imported by the source but whose files are not part of the
repository snapshot (`./utils`, `./fetch-loop`, the serum market object,
immutable-tuple) are modelled from the spec, each marked by a doc comment
starting with "Modelled from the spec:".
-/

namespace AtrixMarkets

/-- JavaScript number as used by the market math: `none` is `NaN`,
`some q` is the exact numeric value `q`.  Infinities do not arise in any
execution proved below (division by zero is collapsed to `none`). -/
abbrev JNum := Option ℚ

/-- Embed a numeric literal or plain number into `JNum`. -/
def jnum (q : ℚ) : JNum := some q

/-- JavaScript addition: `NaN` propagates. -/
def jadd : JNum → JNum → JNum
  | some a, some b => some (a + b)
  | _, _ => none

/-- JavaScript subtraction: `NaN` propagates. -/
def jsub : JNum → JNum → JNum
  | some a, some b => some (a - b)
  | _, _ => none

/-- JavaScript multiplication: `NaN` propagates. -/
def jmul : JNum → JNum → JNum
  | some a, some b => some (a * b)
  | _, _ => none

/-- JavaScript division: `NaN` propagates; a zero denominator is collapsed
to `none` (in the executions proved below the denominator is either `NaN`
or nonzero, so the infinity cases of JavaScript never arise). -/
def jdiv : JNum → JNum → JNum
  | some a, some b => if b = 0 then none else some (a / b)
  | _, _ => none

/-- JavaScript strict greater-than: any comparison with `NaN` is false. -/
def jgt : JNum → JNum → Bool
  | some a, some b => decide (b < a)
  | _, _ => false

/-- JavaScript `Math.min`: returns `NaN` when either argument is `NaN`. -/
def jmin : JNum → JNum → JNum
  | some a, some b => some (min a b)
  | _, _ => none

/-- One aggregated L2 price level as returned by `orderbook.getL2`:
an object with `price` and `quantity` fields (see `useOrderbook`, which
reads `p.price` and `p.quantity`). -/
structure L2Level where
  price : ℚ
  quantity : ℚ
deriving DecidableEq

/-- Coercing an L2 level object to a JavaScript number yields `NaN`:
the level is an object (or a multi-element array), not a number. -/
def levelToNum (_ : L2Level) : JNum := none

/-- The local variable `sizeAtLevel` in `getExpectedFillPrice` is declared
(`let price, sizeAtLevel, costAtLevel: number;`) but never assigned: the
loop header `for (price of orderbook.getL2(1000, asks))` binds the whole
level to `price` and never destructures.  Arithmetic on the undefined
variable yields `NaN`. -/
def jsUndefined : JNum := none

/-- Both sides of an order book, already aggregated into L2 levels
(aggregation happens inside the library `getL2`, an opaque boundary). -/
structure OrderbookSides where
  bidLevels : List L2Level
  askLevels : List L2Level
deriving DecidableEq

/-- Embedding of `orderbook.getL2(depth, asksSide)`: the chosen side,
truncated to `depth` levels (markets.tsx uses `false` for bids and `true`
for asks in `useOrderbook`). -/
def getL2 (ob : OrderbookSides) (depth : ℕ) (asksSide : Bool) : List L2Level :=
  (if asksSide then ob.askLevels else ob.bidLevels).take depth

/-- The `for (price of orderbook.getL2(1000, asks)) { ... }` loop of
`getExpectedFillPrice` (markets.tsx lines 1119-1131), with loop state
`(spentCost, avgPrice)`.  Inside the body:
`costAtLevel = (!asks ? 1 : price) * sizeAtLevel`, the early exit
`if (spentCost + costAtLevel > cost)` adds the partial cost and sets
`spentCost = cost`, otherwise both accumulators advance. -/
def fillLoop (asks : Bool) (cost : JNum) :
    List L2Level → JNum → JNum → JNum × JNum
  | [], spentCost, avgPrice => (spentCost, avgPrice)
  | lvl :: rest, spentCost, avgPrice =>
    let costAtLevel := jmul (if asks then levelToNum lvl else jnum 1) jsUndefined
    if jgt (jadd spentCost costAtLevel) cost then
      (cost, jadd avgPrice (jmul (jsub cost spentCost) (levelToNum lvl)))
    else
      fillLoop asks cost rest (jadd spentCost costAtLevel)
        (jadd avgPrice (jmul costAtLevel (levelToNum lvl)))

/-- Modelled from the spec: `floorToDecimal` is imported from `./utils`,
which is not in the repository snapshot; per the spec (section 4.4) it
rounds down to the given number of decimals,
`Math.floor(value * 10^d) / 10^d`, and maps `NaN` to `NaN`. -/
def floorToDecimal (value : JNum) (decimals : ℕ) : JNum :=
  match value with
  | some q => some ((Rat.floor (q * 10 ^ decimals) : ℚ) / 10 ^ decimals)
  | none => none

/-- Embedding of `getExpectedFillPrice` (markets.tsx lines 1113-1140).
After the walk, `totalAvgPrice = avgPrice / Math.min(cost, spentCost)`;
`if (tickSizeDecimals)` is JavaScript truthiness, so both an absent
argument and the value `0` skip the flooring. -/
def getExpectedFillPrice (orderbook : OrderbookSides) (cost : JNum)
    (asks : Bool) (tickSizeDecimals : Option ℕ) : JNum :=
  let st := fillLoop asks cost (getL2 orderbook 1000 asks) (jnum 0) (jnum 0)
  let totalAvgPrice := jdiv st.2 (jmin cost st.1)
  match tickSizeDecimals with
  | some d => if d ≠ 0 then floorToDecimal totalAvgPrice d else totalAvgPrice
  | none => totalAvgPrice

/-- Modelled from the spec: the walk that section 4.4 prescribes for
`expectedFillPrice` — per level, `costAtLevel = price * sizeAtLevel` when
buying from asks and `sizeAtLevel` alone when selling into bids; on the
crossing level add only `(targetNotional - spentCost) * price` and set
`spentCost = targetNotional`, then stop.  State is
`(spentCost, weightedPriceSum)`. -/
def expectedFillPriceSpecWalk (asks : Bool) (targetNotional : ℚ) :
    List (ℚ × ℚ) → ℚ → ℚ → ℚ × ℚ
  | [], spentCost, weightedPriceSum => (spentCost, weightedPriceSum)
  | (price, sizeAtLevel) :: rest, spentCost, weightedPriceSum =>
    let costAtLevel := if asks then price * sizeAtLevel else sizeAtLevel
    if spentCost + costAtLevel > targetNotional then
      (targetNotional, weightedPriceSum + (targetNotional - spentCost) * price)
    else
      expectedFillPriceSpecWalk asks targetNotional rest
        (spentCost + costAtLevel) (weightedPriceSum + costAtLevel * price)

/-- Modelled from the spec: the section 4.4 result,
`weightedPriceSum / min(targetNotional, spentCost)` (flooring to tick
decimals left aside, as the claims compare exact values). -/
def expectedFillPriceSpec (levels : List (ℚ × ℚ)) (targetNotional : ℚ)
    (asks : Bool) : ℚ :=
  let st := expectedFillPriceSpecWalk asks targetNotional levels 0 0
  st.2 / min targetNotional st.1

/-- JavaScript truthiness of an array value: an array is an object and
objects are truthy, even when the array is empty. -/
def jsTruthyArray {α : Type} (_ : List α) : Bool := true

/-- Embedding of `useOrderbook` (markets.tsx lines 367-382): the L2 sides
mapped to `[price, quantity]` pairs (empty when the order book or the
market is missing), paired with the flag `!!bids || !!asks`. -/
def useOrderbook (orderbook : Option OrderbookSides) (market : Option Unit)
    (depth : ℕ) : (List (ℚ × ℚ) × List (ℚ × ℚ)) × Bool :=
  let bids :=
    match orderbook, market with
    | some ob, some _ => (getL2 ob depth false).map (fun p => (p.price, p.quantity))
    | _, _ => []
  let asks :=
    match orderbook, market with
    | some ob, some _ => (getL2 ob depth true).map (fun p => (p.price, p.quantity))
    | _, _ => []
  ((bids, asks), jsTruthyArray bids || jsTruthyArray asks)

/-- JavaScript truthiness of a value that is either `false`/absent
(`none`) or a number: `0` is falsy. -/
def jsTruthyNum (x : Option ℚ) : Bool :=
  match x with
  | some q => decide (q ≠ 0)
  | none => false

/-- Insert a rational into an ascending list (used to model
`Array.prototype.sort` with the comparator `(a, b) => a - b`). -/
def insertAsc (x : ℚ) : List ℚ → List ℚ
  | [] => [x]
  | y :: ys => if x ≤ y then x :: y :: ys else y :: insertAsc x ys

/-- Ascending sort, the model of `.sort((a, b) => a - b)`. -/
def jsSortAsc (xs : List ℚ) : List ℚ := xs.foldr insertAsc []

/-- Embedding of the computation inside `useMarkPrice` (markets.tsx lines
285-297).  `bb` and `ba` are `length > 0 && Number(side[0][0])`, `last` is
`trades && trades.length > 0 && trades[0].price`; the guard `bb && ba`
and the test on `last` are JavaScript truthiness, so a best price (or a
last-trade price) equal to `0` is falsy.  The median branch is
`[bb, ba, last].sort((a, b) => a - b)[1]`. -/
def useMarkPrice (bids asks : List (ℚ × ℚ)) (trades : Option (List ℚ)) :
    Option ℚ :=
  let bb : Option ℚ := match bids with | [] => none | (p, _) :: _ => some p
  let ba : Option ℚ := match asks with | [] => none | (p, _) :: _ => some p
  let last : Option ℚ := match trades with
    | some (p :: _) => some p
    | _ => none
  if jsTruthyNum bb && jsTruthyNum ba then
    if jsTruthyNum last then
      (jsSortAsc [bb.getD 0, ba.getD 0, last.getD 0])[1]?
    else
      some ((bb.getD 0 + ba.getD 0) / 2)
  else
    none

/-- Median of three rationals, stated independently of the sort used in
the source: the middle value. -/
def median3 (a b c : ℚ) : ℚ := max (min a b) (min (max a b) c)

/-- One entry of the shipped markets list. -/
structure MarketInfo where
  name : String
  address : String
  deprecated : Bool
deriving DecidableEq

/-- Embedding of `USE_MARKETS` (markets.tsx lines 62-69): a single entry
named "Test" at the hard-coded market address, not deprecated. -/
def USE_MARKETS : List MarketInfo :=
  [{ name := "Test",
     address := "BT7i1viSJSQBHQ1jWVs7VWPBrY3gT5PLbYm9f62F7ZhR",
     deprecated := false }]

/-- Embedding of `DEFAULT_MARKET` (markets.tsx lines 139-141): the first
non-deprecated market named "SRM/USDT". -/
def DEFAULT_MARKET : Option MarketInfo :=
  USE_MARKETS.find? (fun m => decide (m.name = "SRM/USDT") && !m.deprecated)

/-- JavaScript truthiness of a string-or-undefined value: `undefined` and
the empty string are falsy. -/
def jsTruthyStr (s : Option String) : Bool :=
  match s with
  | some t => decide (t ≠ "")
  | none => false

/-- Embedding of `getTradePageUrl` (markets.tsx lines 249-258).
`savedMarketAddress` is the parsed value of the "marketAddress"
preference when one is stored (`if (saved) marketAddress =
JSON.parse(saved)`), then `marketAddress = marketAddress ||
DEFAULT_MARKET?.address.toBase58() || ''` and the result is
`/market/` followed by the resolved address. -/
def getTradePageUrl (marketAddress savedMarketAddress : Option String) :
    String :=
  let resolved :=
    if jsTruthyStr marketAddress then marketAddress
    else
      let afterSaved :=
        if savedMarketAddress.isSome then savedMarketAddress else marketAddress
      if jsTruthyStr afterSaved then afterSaved
      else if jsTruthyStr (DEFAULT_MARKET.map (fun m => m.address)) then
        DEFAULT_MARKET.map (fun m => m.address)
      else some ""
  "/market/" ++ resolved.getD ""

/-- Embedding of the root route of `Routes` (routes.tsx lines 15-17):
the path "/" redirects to `getTradePageUrl()` — called with no argument,
so only the saved preference can supply an address. -/
def rootRedirectTarget (savedMarketAddress : Option String) : String :=
  getTradePageUrl none savedMarketAddress

/-- A primitive JavaScript value usable as a cache-key argument. -/
inductive JSPrim
  | str (s : String)
  | num (q : ℚ)
  | boolVal (b : Bool)
  | null
deriving DecidableEq

/-- A cache-key argument: a primitive, or an object carrying an
allocation identity `id` together with its (deep) content. -/
inductive JSArg
  | prim (p : JSPrim)
  | obj (id : ℕ) (content : List (String × JSPrim))
deriving DecidableEq

/-- JavaScript SameValue on key arguments: value equality for
primitives, reference identity for objects. -/
def sameValue : JSArg → JSArg → Bool
  | JSArg.prim p, JSArg.prim q => decide (p = q)
  | JSArg.obj i _, JSArg.obj j _ => decide (i = j)
  | _, _ => false

/-- Deep (structural) value equality on key arguments: content equality
for objects, ignoring allocation identity. -/
def deepEqArg : JSArg → JSArg → Bool
  | JSArg.prim p, JSArg.prim q => decide (p = q)
  | JSArg.obj _ c, JSArg.obj _ d => decide (c = d)
  | _, _ => false

/-- Pairwise SameValue on argument sequences. -/
def sameValueList : List JSArg → List JSArg → Bool
  | [], [] => true
  | x :: xs, y :: ys => sameValue x y && sameValueList xs ys
  | _, _ => false

/-- Pairwise deep equality on argument sequences. -/
def deepEqList : List JSArg → List JSArg → Bool
  | [], [] => true
  | x :: xs, y :: ys => deepEqArg x y && deepEqList xs ys
  | _, _ => false

/-- Every argument of the sequence is a primitive. -/
def allPrim : List JSArg → Bool
  | [] => true
  | JSArg.prim _ :: xs => allPrim xs
  | JSArg.obj _ _ :: _ => false

/-- A composite cache key: operation name plus argument sequence. -/
structure CacheKey where
  opName : String
  args : List JSArg
deriving DecidableEq

/-- Modelled from the spec: the cache keys are built with `tuple` from
immutable-tuple (markets.tsx line 20, used at lines 402-407 and
throughout) and looked up by the fetch loop in `./fetch-loop`, which is
not in the repository snapshot.  Section 9 of the spec describes the
source mechanism as "tuple-identity-based cache keys relying on object
interning": `tuple` returns the same interned key object exactly when
every argument is the same under SameValue, so two keys are equal under
the cache lookup iff the operation names agree and the argument
sequences are pairwise SameValue-identical. -/
def makeKey (opName : String) (args : List JSArg) : CacheKey :=
  { opName := opName, args := args }

/-- Modelled from the spec: equality of two interned tuple keys under
the cache lookup — same operation name and pairwise SameValue-identical
arguments (reference identity for objects, value for primitives). -/
def keyEq (k l : CacheKey) : Bool :=
  decide (k.opName = l.opName) && sameValueList k.args l.args

/-- The free/total fixed-point fields of an open-orders account
(unsigned 64-bit on chain; modelled as naturals). -/
structure OpenOrdersAcct where
  baseTokenFree : ℕ
  baseTokenTotal : ℕ
  quoteTokenFree : ℕ
  quoteTokenTotal : ℕ
deriving DecidableEq

/-- The decimal counts of the two currencies of a market. -/
structure MarketDec where
  baseDecimals : ℕ
  quoteDecimals : ℕ
deriving DecidableEq

/-- Modelled from the spec: `divideBnToNumber` over a power-of-ten
multiplier, imported from `./utils` which is not in the repository
snapshot.  Per the spec (section 3) the conversion keeps integer
arithmetic — integer quotient and remainder — until the final scaling
division. -/
def divideBnToNumber (numerator denominator : ℕ) : ℚ :=
  ((numerator / denominator : ℕ) : ℚ) +
    ((numerator % denominator : ℕ) : ℚ) / (denominator : ℚ)

/-- Modelled from the spec: `getTokenMultiplierFromDecimals` from
`./utils` — the power-of-ten multiplier for a decimal count. -/
def getTokenMultiplierFromDecimals (decimals : ℕ) : ℕ := 10 ^ decimals

/-- Modelled from the spec: the scaling `scale(a, d) = a / 10^d` of
section 4.5, the meaning of the serum market object's
`baseSplSizeToNumber` and `quoteSplSizeToNumber` (the serum library is
outside the repository).  The argument is an integer because the source
applies it to a `BN` difference `total.sub(free)`. -/
def splSizeToNumber (size : ℤ) (decimals : ℕ) : ℚ :=
  (size : ℚ) / 10 ^ decimals

/-- Scaling by the base-currency decimals of a market
(`market.baseSplSizeToNumber`). -/
def baseSplSizeToNumber (m : MarketDec) (size : ℤ) : ℚ :=
  splSizeToNumber size m.baseDecimals

/-- Scaling by the quote-currency decimals of a market
(`market.quoteSplSizeToNumber`). -/
def quoteSplSizeToNumber (m : MarketDec) (size : ℤ) : ℚ :=
  splSizeToNumber size m.quoteDecimals

/-- The fields of a wallet token account that the balance hooks read:
the native lamport balance and the raw unsigned 64-bit token amount
decoded from `data.slice(64, 72)` (the decoder is an opaque boundary). -/
structure AccountInfo where
  lamports : ℕ
  tokenAmount : ℕ
deriving DecidableEq

/-- Embedding of `useSelectedBaseCurrencyBalances` (markets.tsx lines
496-509): null unless the market, the selected base-currency account and
the fetched account info are all present and loaded; then the native
lamport balance over `1e9` for wrapped SOL, otherwise
`market.baseSplSizeToNumber` of the raw token amount. -/
def useSelectedBaseCurrencyBalances (market : Option MarketDec)
    (baseIsWrappedSol : Bool) (baseCurrencyAccount : Option Unit)
    (loaded : Bool) (accountInfo : Option AccountInfo) : Option ℚ :=
  match market, baseCurrencyAccount, loaded, accountInfo with
  | some m, some _, true, some info =>
    if baseIsWrappedSol then some ((info.lamports : ℚ) / 10 ^ 9)
    else some (baseSplSizeToNumber m (info.tokenAmount : ℤ))
  | _, _, _, _ => none

/-- Embedding of `useSelectedQuoteCurrencyBalances` (markets.tsx lines
480-493), the quote-side twin. -/
def useSelectedQuoteCurrencyBalances (market : Option MarketDec)
    (quoteIsWrappedSol : Bool) (quoteCurrencyAccount : Option Unit)
    (loaded : Bool) (accountInfo : Option AccountInfo) : Option ℚ :=
  match market, quoteCurrencyAccount, loaded, accountInfo with
  | some m, some _, true, some info =>
    if quoteIsWrappedSol then some ((info.lamports : ℚ) / 10 ^ 9)
    else some (quoteSplSizeToNumber m (info.tokenAmount : ℤ))
  | _, _, _, _ => none

/-- Embedding of `useSelectedOpenOrdersAccount` (markets.tsx lines
409-415): null when the accounts list is absent, otherwise
`accounts[0]` (undefined — absent — when the list is empty). -/
def useSelectedOpenOrdersAccount (accounts : Option (List OpenOrdersAcct)) :
    Option OpenOrdersAcct :=
  match accounts with
  | none => none
  | some l => l.head?

/-- One row of the balances table returned by `useBalances`. -/
structure BalanceRow where
  key : String
  coin : String
  wallet : Option ℚ
  openOrders : Option OpenOrdersAcct
  orders : Option ℚ
  unsettled : Option ℚ
deriving DecidableEq

/-- Embedding of `useBalances` (markets.tsx lines 758-811).
`baseExists` is `openOrders && openOrders.baseTokenTotal &&
openOrders.baseTokenFree`; the two token fields are `BN` objects, truthy
even when zero, so existence reduces to the open-orders account being
present (likewise `quoteExists`).  The guard returns the empty list when
either currency is the literal "UNKNOWN" or falsy. -/
def useBalances (baseCurrencyBalances quoteCurrencyBalances : Option ℚ)
    (openOrders : Option OpenOrdersAcct)
    (baseCurrency quoteCurrency : Option String)
    (market : Option MarketDec) : List BalanceRow :=
  let baseExists := openOrders.isSome
  let quoteExists := openOrders.isSome
  if baseCurrency = some "UNKNOWN" ∨ quoteCurrency = some "UNKNOWN" ∨
      jsTruthyStr baseCurrency = false ∨ jsTruthyStr quoteCurrency = false then
    []
  else
    let bc := baseCurrency.getD ""
    let qc := quoteCurrency.getD ""
    [{ key := bc ++ qc ++ bc,
       coin := bc,
       wallet := baseCurrencyBalances,
       openOrders := openOrders,
       orders :=
         match baseExists, market, openOrders with
         | true, some m, some oo =>
           some (baseSplSizeToNumber m
             ((oo.baseTokenTotal : ℤ) - (oo.baseTokenFree : ℤ)))
         | _, _, _ => none,
       unsettled :=
         match baseExists, market, openOrders with
         | true, some m, some oo =>
           some (baseSplSizeToNumber m (oo.baseTokenFree : ℤ))
         | _, _, _ => none },
     { key := qc ++ bc ++ qc,
       coin := qc,
       wallet := quoteCurrencyBalances,
       openOrders := openOrders,
       orders :=
         match quoteExists, market, openOrders with
         | true, some m, some oo =>
           some (quoteSplSizeToNumber m
             ((oo.quoteTokenTotal : ℤ) - (oo.quoteTokenFree : ℤ)))
         | _, _, _ => none,
       unsettled :=
         match quoteExists, market, openOrders with
         | true, some m, some oo =>
           some (quoteSplSizeToNumber m (oo.quoteTokenFree : ℤ))
         | _, _, _ => none }]

/-- A transport-level failure of the network data source. -/
structure TransportError where
  msg : String
deriving DecidableEq

/-- A wallet public key, as an opaque base58 string. -/
abbrev PubKeyStr := String

/-- Embedding of the fetcher inside `useOpenOrdersAccounts` (markets.tsx
lines 386-407).  The network data source
(`market.findOpenOrdersAccountForOwner`) is passed as an oracle; the
second component records whether it was invoked.  When the wallet is not
connected (or absent) or the market is missing, the fetcher returns null
before any network access, not an error. -/
def getOpenOrdersAccounts (connected : Bool) (wallet : Option PubKeyStr)
    (market : Option Unit)
    (findOpenOrdersAccountForOwner :
      PubKeyStr → Except TransportError (List OpenOrdersAcct)) :
    Except TransportError (Option (List OpenOrdersAcct)) × Bool :=
  match connected, wallet with
  | true, some w =>
    match market with
    | none => (Except.ok none, false)
    | some _ =>
      (match findOpenOrdersAccountForOwner w with
       | Except.ok accts => Except.ok (some accts)
       | Except.error e => Except.error e, true)
  | _, _ => (Except.ok none, false)

/-- A wallet token account as listed by `getTokenAccountInfo` (opaque
content suffices for the claims). -/
structure TokenAcct where
  pubkey : PubKeyStr
deriving DecidableEq

/-- Embedding of the fetcher inside `useTokenAccounts` (markets.tsx
lines 417-434), with the network data source (`getTokenAccountInfo`)
passed as an oracle; the second component records whether it was
invoked. -/
def getTokenAccounts (connected : Bool) (wallet : Option PubKeyStr)
    (getTokenAccountInfo :
      PubKeyStr → Except TransportError (List TokenAcct)) :
    Except TransportError (Option (List TokenAcct)) × Bool :=
  match connected, wallet with
  | true, some w =>
    (match getTokenAccountInfo w with
     | Except.ok accts => Except.ok (some accts)
     | Except.error e => Except.error e, true)
  | _, _ => (Except.ok none, false)

/-- Iterated add-then-subtract round trips, the "repeated additions" of
the decimal-scaling claim. -/
def iterateAddSub : ℕ → ℚ → ℚ → ℚ
  | 0, _, x => x
  | n + 1, y, x => iterateAddSub n y (x + y - y)

lemma jmul_undefined (x : JNum) : jmul x jsUndefined = none := by
  cases x <;> rfl

lemma jmul_none_left (x : JNum) : jmul none x = none := by
  cases x <;> rfl

lemma jadd_none_right (x : JNum) : jadd x none = none := by
  cases x <;> rfl

lemma jgt_none_left (x : JNum) : jgt none x = false := by
  cases x <;> rfl

lemma jmin_none_right (x : JNum) : jmin x none = none := by
  cases x <;> rfl

lemma jdiv_none_left (x : JNum) : jdiv none x = none := by
  cases x <;> rfl

lemma fillLoop_none (asks : Bool) (cost : JNum) (levels : List L2Level) :
    fillLoop asks cost levels none none = (none, none) := by
  induction levels with
  | nil => rfl
  | cons lvl rest ih =>
    simp only [fillLoop, jmul_undefined, jadd_none_right, jgt_none_left,
      jmul_none_left, Bool.false_eq_true, if_false]
    exact ih

lemma fillLoop_cons_start (asks : Bool) (c : ℚ) (lvl : L2Level)
    (rest : List L2Level) :
    fillLoop asks (jnum c) (lvl :: rest) (jnum 0) (jnum 0) = (none, none) := by
  simp only [fillLoop, jmul_undefined, jadd_none_right, jgt_none_left,
    jmul_none_left, Bool.false_eq_true, if_false]
  exact fillLoop_none asks (jnum c) rest

/-- C1: on the spec fixture — asks `[(10,1),(11,1)]`, target quote
notional `15`, buying from asks — the documented walk gives
`(10*1*10 + (15-10)*11) / 15 = 155/15 = 31/3`, but the shipped
`getExpectedFillPrice` returns `NaN`: its loop binds each whole L2 level
to `price` and never assigns `sizeAtLevel`, so every `costAtLevel` is
`NaN` and every accumulator becomes `NaN`. -/
theorem getExpectedFillPrice_nan_at_spec_fixture :
    getExpectedFillPrice ⟨[], [⟨10, 1⟩, ⟨11, 1⟩]⟩ (jnum 15) true none = none ∧
    expectedFillPriceSpec [(10, 1), (11, 1)] 15 true = 31 / 3 := by
  constructor
  · decide
  · norm_num [expectedFillPriceSpec, expectedFillPriceSpecWalk]

/-- C7: the claim says the result is `weightedPriceSum /
min(targetNotional, spentCost)`, reflecting the available liquidity and
floored to tick decimals; in fact, for every order book whose walked side
is non-empty and every cost and tick argument, the function returns
`NaN`, because `sizeAtLevel` is never assigned in the loop. -/
theorem getExpectedFillPrice_always_nan (ob : OrderbookSides) (cost : ℚ)
    (asks : Bool) (tick : Option ℕ) (h : getL2 ob 1000 asks ≠ []) :
    getExpectedFillPrice ob (jnum cost) asks tick = none := by
  obtain ⟨lvl, rest, heq⟩ := List.exists_cons_of_ne_nil h
  unfold getExpectedFillPrice
  rw [heq, fillLoop_cons_start]
  simp only [jmin_none_right, jdiv_none_left]
  cases tick with
  | none => rfl
  | some d =>
    by_cases hd : d = 0 <;> simp [hd, floorToDecimal]

/-- Witness for C7: a one-level book with insufficient depth for a cost
of `100`; the result is `NaN`, not a partial-liquidity average. -/
theorem getExpectedFillPrice_always_nan_witness :
    getL2 ⟨[], [⟨10, 1⟩]⟩ 1000 true ≠ [] ∧
    getExpectedFillPrice ⟨[], [⟨10, 1⟩]⟩ (jnum 100) true (some 2) = none :=
  ⟨by decide, getExpectedFillPrice_always_nan _ 100 true (some 2) (by decide)⟩

/-- C9: the second component of the pair returned by `useOrderbook` is
`!!bids || !!asks` over two array values, which are truthy even when
empty, so the flag is the constant `true` for every input state. -/
theorem useOrderbook_flag_constant_true (orderbook : Option OrderbookSides)
    (market : Option Unit) (depth : ℕ) :
    (useOrderbook orderbook market depth).2 = true := rfl

/-- C10: the shipped markets list has only an entry named "Test", so the
search for a non-deprecated "SRM/USDT" yields no `DEFAULT_MARKET`;
`getTradePageUrl()` with no argument and no saved preference therefore
resolves the address to the empty string and returns "/market/", which
is also the target of the root-route redirect. -/
theorem DEFAULT_MARKET_undefined_root_redirect :
    DEFAULT_MARKET = none ∧ getTradePageUrl none none = "/market/" ∧
    rootRedirectTarget none = "/market/" := by
  refine ⟨by decide, by decide, by decide⟩

lemma jsSortAsc_three (a b c : ℚ) :
    (jsSortAsc [a, b, c])[1]? = some (median3 a b c) := by
  simp only [jsSortAsc, List.foldr]
  by_cases hbc : b ≤ c <;> by_cases hab : a ≤ b <;> by_cases hac : a ≤ c <;>
    simp [insertAsc, median3, hbc, hab, hac, max_def, min_def] <;>
      split_ifs <;> first | rfl | linarith

/-- C2 (amended): full characterization of `useMarkPrice`.  When both
sides are non-empty and the best bid and best ask prices are nonzero,
the result is the median of the best bid, best ask and last-trade
prices when a last trade with nonzero price exists, and the midpoint
otherwise; the result is null when either side is empty or when a best
price is `0` (falsy under the `bb && ba` guard of the source). -/
theorem useMarkPrice_characterization (bids asks : List (ℚ × ℚ))
    (trades : Option (List ℚ)) :
    useMarkPrice bids asks trades =
      match bids, asks with
      | (bp, _) :: _, (ap, _) :: _ =>
        if bp ≠ 0 ∧ ap ≠ 0 then
          match trades with
          | some (t :: _) =>
            if t ≠ 0 then some (median3 bp ap t) else some ((bp + ap) / 2)
          | _ => some ((bp + ap) / 2)
        else none
      | _, _ => none := by
  cases bids with
  | nil =>
    cases asks with
    | nil => simp [useMarkPrice, jsTruthyNum]
    | cons a as => simp [useMarkPrice, jsTruthyNum]
  | cons b bs =>
    cases asks with
    | nil => simp [useMarkPrice, jsTruthyNum]
    | cons a as =>
      obtain ⟨bp, bq⟩ := b
      obtain ⟨ap, aq⟩ := a
      by_cases hb : bp = 0
      · simp [useMarkPrice, jsTruthyNum, hb]
      · by_cases ha : ap = 0
        · simp [useMarkPrice, jsTruthyNum, hb, ha]
        · cases trades with
          | none => simp [useMarkPrice, jsTruthyNum, hb, ha]
          | some l =>
            cases l with
            | nil => simp [useMarkPrice, jsTruthyNum, hb, ha]
            | cons t ts =>
              by_cases ht : t = 0
              · simp [useMarkPrice, jsTruthyNum, hb, ha, ht]
              · simp [useMarkPrice, jsTruthyNum, hb, ha, ht, jsSortAsc_three]

/-- Witness for C2: the spec fixtures — bids `[(10,1),(9,2)]`, asks
`[(11,1),(12,3)]`; no trades gives `21/2 = 10.5`, a last trade at
`54/5 = 10.8` gives `54/5`; an empty bid side gives null. -/
theorem useMarkPrice_characterization_witness :
    useMarkPrice [(10, 1), (9, 2)] [(11, 1), (12, 3)] none = some (21 / 2) ∧
    useMarkPrice [(10, 1), (9, 2)] [(11, 1), (12, 3)] (some [54 / 5]) =
      some (54 / 5) ∧
    useMarkPrice [] [(11, 1)] none = none := by
  refine ⟨?_, ?_, ?_⟩
  · rw [useMarkPrice_characterization]
    norm_num
  · rw [useMarkPrice_characterization]
    norm_num [median3, max_def, min_def]
  · rw [useMarkPrice_characterization]

/-- Counterexample for C2 as stated: both sides are non-empty but the
best bid price is `0`, which is falsy in JavaScript, so the source
returns null instead of the claimed midpoint `(0 + 11) / 2`. -/
theorem useMarkPrice_zero_best_bid_counterexample :
    useMarkPrice [(0, 1)] [(11, 1)] none = none ∧
    useMarkPrice [(0, 1)] [(11, 1)] none ≠ some ((0 + 11) / 2) := by
  constructor
  · decide
  · decide

lemma sameValueList_of_deepEq_allPrim :
    ∀ (xs ys : List JSArg), deepEqList xs ys = true → allPrim xs = true →
      sameValueList xs ys = true
  | [], [], _, _ => rfl
  | [], _ :: _, h, _ => by simp [deepEqList] at h
  | _ :: _, [], h, _ => by simp [deepEqList] at h
  | x :: xs, y :: ys, h, hp => by
    cases x with
    | obj i c => simp [allPrim] at hp
    | prim p =>
      cases y with
      | obj j d => simp [deepEqList, deepEqArg] at h
      | prim q =>
        simp only [deepEqList, deepEqArg, Bool.and_eq_true,
          decide_eq_true_eq] at h
        simp only [sameValueList, sameValue, Bool.and_eq_true,
          decide_eq_true_eq]
        exact ⟨h.1, sameValueList_of_deepEq_allPrim xs ys h.2
          (by simpa [allPrim] using hp)⟩

/-- C3 (amended): two tuple-interned cache keys compare equal exactly
when the operation names agree and the argument sequences are pairwise
identical under SameValue (reference identity for objects); in
particular deep-equal argument sequences give equal keys whenever all
arguments are primitives, but not for freshly allocated objects. -/
theorem makeKey_identity_semantics (n : String) (xs ys : List JSArg) :
    (keyEq (makeKey n xs) (makeKey n ys) = true ↔
      sameValueList xs ys = true) ∧
    (deepEqList xs ys = true → allPrim xs = true →
      keyEq (makeKey n xs) (makeKey n ys) = true) := by
  constructor
  · simp [keyEq, makeKey]
  · intro h hp
    simp [keyEq, makeKey, sameValueList_of_deepEq_allPrim xs ys h hp]

/-- Witness for C3: primitive arguments — an operation name, a boolean
and a string — give equal keys when constructed independently. -/
theorem makeKey_identity_semantics_witness :
    keyEq
      (makeKey "getOpenOrdersAccounts"
        [JSArg.prim (JSPrim.boolVal true), JSArg.prim (JSPrim.str "T")])
      (makeKey "getOpenOrdersAccounts"
        [JSArg.prim (JSPrim.boolVal true), JSArg.prim (JSPrim.str "T")]) =
      true :=
  (makeKey_identity_semantics "getOpenOrdersAccounts" _ _).2
    (by decide) (by decide)

/-- Counterexample for C3 as stated: two freshly allocated wallet-like
objects with identical content (deep-equal) but distinct allocation
identities produce cache keys that do not compare equal, so a context
closing over a freshly decoded object misses the cache. -/
theorem makeKey_fresh_object_counterexample :
    deepEqList [JSArg.obj 1 [("publicKey", JSPrim.str "W")]]
        [JSArg.obj 2 [("publicKey", JSPrim.str "W")]] = true ∧
    keyEq
      (makeKey "getOpenOrdersAccounts"
        [JSArg.obj 1 [("publicKey", JSPrim.str "W")]])
      (makeKey "getOpenOrdersAccounts"
        [JSArg.obj 2 [("publicKey", JSPrim.str "W")]]) = false := by
  constructor
  · decide
  · decide

/-- C4: with a market of known currencies, an open-orders account
present, and loaded non-native wallet token accounts, `useBalances`
reports for each currency `orders = (total - free) / 10^d`,
`unsettled = free / 10^d`, and `wallet` equal to the wallet
token-account raw amount over `10^d` for that currency. -/
theorem useBalances_with_account (m : MarketDec) (oo : OpenOrdersAcct)
    (bc qc : String) (infoB infoQ : AccountInfo)
    (hbc1 : bc ≠ "UNKNOWN") (hbc2 : bc ≠ "")
    (hqc1 : qc ≠ "UNKNOWN") (hqc2 : qc ≠ "") :
    useBalances
        (useSelectedBaseCurrencyBalances (some m) false (some ()) true
          (some infoB))
        (useSelectedQuoteCurrencyBalances (some m) false (some ()) true
          (some infoQ))
        (some oo) (some bc) (some qc) (some m) =
      [{ key := bc ++ qc ++ bc,
         coin := bc,
         wallet := some ((infoB.tokenAmount : ℚ) / 10 ^ m.baseDecimals),
         openOrders := some oo,
         orders := some
           ((((oo.baseTokenTotal : ℤ) - (oo.baseTokenFree : ℤ) : ℤ) : ℚ) /
             10 ^ m.baseDecimals),
         unsettled := some
           ((oo.baseTokenFree : ℚ) / 10 ^ m.baseDecimals) },
       { key := qc ++ bc ++ qc,
         coin := qc,
         wallet := some ((infoQ.tokenAmount : ℚ) / 10 ^ m.quoteDecimals),
         openOrders := some oo,
         orders := some
           ((((oo.quoteTokenTotal : ℤ) - (oo.quoteTokenFree : ℤ) : ℤ) : ℚ) /
             10 ^ m.quoteDecimals),
         unsettled := some
           ((oo.quoteTokenFree : ℚ) / 10 ^ m.quoteDecimals) }] := by
  simp [useBalances, useSelectedBaseCurrencyBalances,
    useSelectedQuoteCurrencyBalances, baseSplSizeToNumber,
    quoteSplSizeToNumber, splSizeToNumber, jsTruthyStr,
    hbc1, hbc2, hqc1, hqc2]

/-- Witness for C4: base decimals `6`, quote decimals `2`, an account
with base total `5` / free `2` and quote total `7` / free `3`, wallet
raw amounts `123456` and `500`. -/
theorem useBalances_with_account_witness :
    useBalances
        (useSelectedBaseCurrencyBalances (some ⟨6, 2⟩) false (some ()) true
          (some ⟨0, 123456⟩))
        (useSelectedQuoteCurrencyBalances (some ⟨6, 2⟩) false (some ()) true
          (some ⟨0, 500⟩))
        (some ⟨2, 5, 3, 7⟩) (some "BASE") (some "QUOTE") (some ⟨6, 2⟩) =
      [{ key := "BASEQUOTEBASE",
         coin := "BASE",
         wallet := some (123456 / 10 ^ 6),
         openOrders := some ⟨2, 5, 3, 7⟩,
         orders := some (3 / 10 ^ 6),
         unsettled := some (2 / 10 ^ 6) },
       { key := "QUOTEBASEQUOTE",
         coin := "QUOTE",
         wallet := some (500 / 10 ^ 2),
         openOrders := some ⟨2, 5, 3, 7⟩,
         orders := some (4 / 10 ^ 2),
         unsettled := some (3 / 10 ^ 2) }] := by
  have h := useBalances_with_account ⟨6, 2⟩ ⟨2, 5, 3, 7⟩ "BASE" "QUOTE"
    ⟨0, 123456⟩ ⟨0, 500⟩ (by decide) (by decide) (by decide) (by decide)
  rw [h]
  norm_num
  exact ⟨by decide, by decide⟩

/-- C5: when no open-orders account exists for the current market (the
selected account is absent), `useBalances` reports `orders` and
`unsettled` as null — never `0` — on both returned rows. -/
theorem useBalances_no_account_absent (bb qb : Option ℚ)
    (accounts : Option (List OpenOrdersAcct)) (bc qc : String)
    (market : Option MarketDec)
    (hsel : useSelectedOpenOrdersAccount accounts = none)
    (hbc1 : bc ≠ "UNKNOWN") (hbc2 : bc ≠ "")
    (hqc1 : qc ≠ "UNKNOWN") (hqc2 : qc ≠ "") :
    (useBalances bb qb (useSelectedOpenOrdersAccount accounts) (some bc)
        (some qc) market).length = 2 ∧
    ∀ row ∈ useBalances bb qb (useSelectedOpenOrdersAccount accounts)
        (some bc) (some qc) market,
      row.orders = none ∧ row.unsettled = none := by
  rw [hsel]
  cases market <;>
    simp [useBalances, jsTruthyStr, hbc1, hbc2, hqc1, hqc2]

/-- Witness for C5: no open-orders accounts at all; both rows carry null
`orders` and `unsettled`. -/
theorem useBalances_no_account_absent_witness :
    (useBalances none none (useSelectedOpenOrdersAccount none) (some "BASE")
        (some "QUOTE") (some ⟨6, 2⟩)).length = 2 ∧
    ∀ row ∈ useBalances none none (useSelectedOpenOrdersAccount none)
        (some "BASE") (some "QUOTE") (some ⟨6, 2⟩),
      row.orders = none ∧ row.unsettled = none :=
  useBalances_no_account_absent none none none "BASE" "QUOTE" (some ⟨6, 2⟩)
    rfl (by decide) (by decide) (by decide) (by decide)

/-- C6: while the wallet is not connected (or absent), the open-orders
and token-account fetchers return null without invoking the network data
source (the invocation flag is `false`), and the outcome is the `ok`
branch, not an error. -/
theorem disconnected_fetchers_absent (connected : Bool)
    (wallet : Option PubKeyStr) (market : Option Unit)
    (findOO : PubKeyStr → Except TransportError (List OpenOrdersAcct))
    (getTA : PubKeyStr → Except TransportError (List TokenAcct))
    (h : connected = false ∨ wallet = none) :
    getOpenOrdersAccounts connected wallet market findOO =
      (Except.ok none, false) ∧
    getTokenAccounts connected wallet getTA = (Except.ok none, false) := by
  rcases h with h | h
  · subst h
    cases wallet <;> exact ⟨rfl, rfl⟩
  · subst h
    cases connected <;> exact ⟨rfl, rfl⟩

/-- Witness for C6: a disconnected wallet with an owner key and a market
present; both fetchers return null without a network call. -/
theorem disconnected_fetchers_absent_witness :
    getOpenOrdersAccounts false (some "owner") (some ())
        (fun _ => Except.ok []) = (Except.ok none, false) ∧
    getTokenAccounts false (some "owner") (fun _ => Except.ok []) =
      (Except.ok none, false) :=
  disconnected_fetchers_absent false (some "owner") (some ())
    (fun _ => Except.ok []) (fun _ => Except.ok []) (Or.inl rfl)

lemma divideBnToNumber_pow10 (a d : ℕ) :
    divideBnToNumber a (10 ^ d) = (a : ℚ) / 10 ^ d := by
  have hcast : ((10 ^ d : ℕ) : ℚ) = (10 : ℚ) ^ d := by push_cast; ring
  have h10 : ((10 : ℚ) ^ d) ≠ 0 := by positivity
  have h : (10 : ℚ) ^ d * ((a / 10 ^ d : ℕ) : ℚ) +
      ((a % 10 ^ d : ℕ) : ℚ) = (a : ℚ) := by
    rw [← hcast]
    exact_mod_cast congrArg (Nat.cast (R := ℚ)) (Nat.div_add_mod a (10 ^ d))
  rw [divideBnToNumber, hcast, eq_div_iff h10, add_mul,
    div_mul_cancel₀ _ h10]
  linarith

lemma iterateAddSub_id (n : ℕ) (y x : ℚ) : iterateAddSub n y x = x := by
  induction n generalizing x with
  | zero => rfl
  | succ k ih =>
    rw [iterateAddSub, add_sub_cancel_right]
    exact ih x

/-- C8: converting a fixed-point integer amount through
`divideBnToNumber` over `getTokenMultiplierFromDecimals d = 10^d` (as
the balance computations do) gives exactly `a / 10^d` for every amount
and every decimal count — in particular every `d` up to `12` — and the
fixture `123456789` with six decimals stays exactly `123456789 / 10^6`
after one thousand add-then-subtract round trips: the arithmetic is
integer-exact until the final scaling division. -/
theorem divideBnToNumber_exact :
    (∀ (a d : ℕ),
      divideBnToNumber a (getTokenMultiplierFromDecimals d) =
        (a : ℚ) / 10 ^ d) ∧
    iterateAddSub 1000 (1 / 10)
        (divideBnToNumber 123456789 (getTokenMultiplierFromDecimals 6)) =
      (123456789 : ℚ) / 10 ^ 6 := by
  constructor
  · intro a d
    exact divideBnToNumber_pow10 a d
  · rw [iterateAddSub_id]
    exact divideBnToNumber_pow10 123456789 6

end AtrixMarkets
